import Mathlib

/-!
Shallow embedding of the `prover` ink! contract (`src/lib.rs` of the
`js_prover` repository).

The contract stores an owner account and an access-control `Config`,
and offers queries (`pubkey`, `get_config`, `run_js`) plus owner-gated
admin messages (`transfer_ownership`, `update_config`, `update_secret`,
`allow_code_hash`).

Host capabilities (caller identity, block number, hashing, the JS
interpreter, key derivation, signing, driver lookup, the contract's own
code hash and address) are modelled as fields of an `Env` record: each
contract message is a pure Lean function of the `Env`, the stored state
and its arguments.  Bytes are modelled as `Nat`; byte strings
(hashes, account ids, keys, signatures) as `List Nat`.

Rust `.expect(...)` panics (which trap the contract call rather than
returning a typed `Error`) are modelled by a dedicated `CallResult.trap`
constructor, distinct from `CallResult.err` which carries the typed
`Error` enum.
-/

set_option autoImplicit false

namespace Prover

/-- A content hash (Rust `Hash`, an opaque 32-byte value), modelled as a
list of byte values. -/
abbrev Hash := List Nat

/-- An account identifier (Rust `AccountId`), modelled as a list of byte
values. -/
abbrev AccountId := List Nat

/-- The typed error enum of `src/lib.rs` (lines 38-45). -/
inductive Error where
  | Unauthorized
  | BadConfig
  | JsError (detail : String)
  deriving DecidableEq, Repr

/-- A source fragment handed to the interpreter; mirrors `phat_js::JsCode`
(`Source(String)` or `Bytecode(Vec<u8>)`), an external collaborator of the
contract. -/
inductive JsCode where
  | source (s : String)
  | bytecode (b : List Nat)
  deriving DecidableEq, Repr

/-- The tagged value returned by the external interpreter; mirrors
`phat_js::JsValue`: exactly one constructor carries a string, the others
cover non-string results and interpreter faults. -/
inductive JsValue where
  | undefined
  | null
  | boolean (b : Bool)
  | string (s : String)
  | bytes (b : List Nat)
  | exception (msg : String)
  | other (repr : String)
  deriving DecidableEq, Repr

/-- Rust `Debug`-style rendering of a `JsValue`, used by `run_js` to build
the `JsError` detail via `format!("Invalid output: {:?}", output)`. -/
def jsValueDebug : JsValue → String
  | .undefined => "Undefined"
  | .null => "Null"
  | .boolean b => if b then "Boolean(true)" else "Boolean(false)"
  | .string s => "String(" ++ reprStr s ++ ")"
  | .bytes b => "Bytes(" ++ reprStr b ++ ")"
  | .exception m => "Exception(" ++ reprStr m ++ ")"
  | .other r => "Other(" ++ reprStr r ++ ")"

/-- The access-control configuration (`Config` enum, `src/lib.rs`
lines 71-81). -/
inductive Config where
  | public
  | whiteList (secret : String) (allowed_code_hashes : List Hash)
  deriving DecidableEq, Repr

/-- The contract storage (`JsProver` struct, `src/lib.rs` lines 83-87). -/
structure JsProver where
  owner : AccountId
  config : Config
  deriving DecidableEq, Repr

/-- The host environment: every capability `src/lib.rs` obtains from
`self.env()`, `pink::ext()` or `SystemRef::instance()`. -/
structure Env where
  /-- `self.env().caller()` -/
  caller : AccountId
  /-- `self.env().account_id()` -/
  account_id : AccountId
  /-- `self.env().block_number()` -/
  block_number : Nat
  /-- `self.env().own_code_hash()`, `None` when the host fails to provide it -/
  own_code_hash : Option Hash
  /-- `self.env().hash_bytes::<Blake2x256>(s.as_bytes())`: the host's
  Blake2-256 over the UTF-8 bytes of a string -/
  blake2x256 : String → Hash
  /-- `pink::ext().js_eval(codes, args)`: the external interpreter -/
  js_eval : List JsCode → List String → JsValue
  /-- `pink::ext().derive_sr25519_key(salt)` -/
  derive_sr25519_key : List Nat → List Nat
  /-- `pink::ext().get_public_key(SigType::Sr25519, key)` -/
  get_public_key : List Nat → List Nat
  /-- `pink::ext().sign(SigType::Sr25519, key, message_bytes)`; the message
  is the payload string -/
  sign : List Nat → String → List Nat
  /-- `SystemRef::instance().get_driver(name)`, `None` when no driver is
  registered under that name -/
  get_driver : String → Option AccountId

/-- Result of a contract call: a typed `Ok`/`Err` value, or a trap caused
by a Rust panic (`.expect(...)`), which never yields a typed `Error`. -/
inductive CallResult (α : Type) where
  | ok (a : α)
  | err (e : Error)
  | trap (msg : String)
  deriving Repr

/-- The canonical signed payload (`ProvenPayload` struct, `src/lib.rs`
lines 49-58); fields in Rust declaration order, which is the order serde
serializes them in. -/
structure ProvenPayload where
  output : String
  js_code_hash : Hash
  js_engine_code_hash : AccountId
  contract_code_hash : Hash
  contract_address : AccountId
  block_number : Nat
  deriving DecidableEq, Repr

/-- The returned bundle (`ProvenOutput` struct, `src/lib.rs`
lines 63-67). -/
structure ProvenOutput where
  payload : String
  signature : List Nat
  pubkey : List Nat
  deriving DecidableEq, Repr

/-- One lowercase hex digit, as produced by `hex::encode`. -/
def hexDigit (n : Nat) : Char :=
  if n < 10 then Char.ofNat (48 + n) else Char.ofNat (87 + n)

/-- Two lowercase hex digits for one byte, as produced by `hex::encode`. -/
def hexByte (b : Nat) : String :=
  String.mk [hexDigit ((b % 256) / 16), hexDigit (b % 16)]

/-- `hex::encode`: lowercase hex of a byte string. -/
def hexEncode (bs : List Nat) : String :=
  String.join (bs.map hexByte)

/-- The `Hexed<T>` serializer of `src/lib.rs` lines 30-34:
`format!("0x{}", hex::encode(bytes))`. -/
def hexed (bs : List Nat) : String :=
  "0x" ++ hexEncode bs

/-- JSON escaping of one character, following serde-json: the quote and
backslash characters are backslash-escaped, the common control characters get short escapes, other
control characters get `\u00xx`, everything else is copied verbatim. -/
def jsonEscapeChar (c : Char) : String :=
  if c = '"' then "\\\""
  else if c = '\\' then "\\\\"
  else if c = Char.ofNat 8 then "\\b"
  else if c = Char.ofNat 9 then "\\t"
  else if c = Char.ofNat 10 then "\\n"
  else if c = Char.ofNat 12 then "\\f"
  else if c = Char.ofNat 13 then "\\r"
  else if c.toNat < 32 then "\\u00" ++ hexByte c.toNat
  else String.singleton c

/-- JSON escaping of a string body. -/
def jsonEscape (s : String) : String :=
  String.join (s.data.map jsonEscapeChar)

/-- A JSON string literal. -/
def jsonString (s : String) : String :=
  "\"" ++ jsonEscape s ++ "\""

/-- `pink_json::to_string(&payload)` (`src/lib.rs` line 173): serde JSON
serialization of `ProvenPayload` — an object whose fields appear in struct
declaration order, `Hexed` fields rendered through the `Hexed` serializer.
Serialization of this struct cannot fail, so it is a total function. -/
def serializePayload (p : ProvenPayload) : String :=
  "\x7b" ++ jsonString "output" ++ ":" ++ jsonString p.output
  ++ "," ++ jsonString "js_code_hash" ++ ":" ++ jsonString (hexed p.js_code_hash)
  ++ "," ++ jsonString "js_engine_code_hash" ++ ":" ++ jsonString (hexed p.js_engine_code_hash)
  ++ "," ++ jsonString "contract_code_hash" ++ ":" ++ jsonString (hexed p.contract_code_hash)
  ++ "," ++ jsonString "contract_address" ++ ":" ++ jsonString (hexed p.contract_address)
  ++ "," ++ jsonString "block_number" ++ ":" ++ toString p.block_number
  ++ "\x7d"

/-- `JsProver::new` (`src/lib.rs` lines 90-96): owner is the instantiating
caller, the supplied configuration is stored verbatim. -/
def new (env : Env) (config : Config) : JsProver :=
  { owner := env.caller, config := config }

/-- `fn ensure_owner` (`src/lib.rs` lines 229-234). -/
def ensure_owner (env : Env) (st : JsProver) : Except Error Unit :=
  if env.caller ≠ st.owner then .error .Unauthorized else .ok ()

/-- `fn key` (`src/lib.rs` lines 236-238):
`pink::ext().derive_sr25519_key(b"signer")`; reads nothing from storage. -/
def key (env : Env) (_st : JsProver) : List Nat :=
  env.derive_sr25519_key [115, 105, 103, 110, 101, 114]

/-- `fn ensure_code_allowed` (`src/lib.rs` lines 240-248). -/
def ensure_code_allowed (st : JsProver) (code_hash : Hash) : Except Error Unit :=
  match st.config with
  | .whiteList _ allowed_code_hashes =>
    if !(allowed_code_hashes.contains code_hash) then .error .Unauthorized
    else .ok ()
  | _ => .ok ()

/-- `fn secret_data` (`src/lib.rs` lines 250-257). -/
def secret_data (st : JsProver) : String :=
  match st.config with
  | .whiteList secret _ => secret
  | _ => ""

/-- `pub fn pubkey` (`src/lib.rs` lines 102-105). -/
def pubkey (env : Env) (st : JsProver) : List Nat :=
  env.get_public_key (key env st)

/-- `pub fn get_config` (`src/lib.rs` lines 108-120): clones the stored
config and clears the whitelist secret when the caller is not the owner.
The message takes `&self`, so the stored configuration is never written. -/
def get_config (env : Env) (st : JsProver) : Config :=
  match st.config with
  | .whiteList secret allowed_code_hashes =>
    if env.caller ≠ st.owner then .whiteList "" allowed_code_hashes
    else .whiteList secret allowed_code_hashes
  | .public => .public

/-- The tail of `run_js` after the interpreter call (`src/lib.rs` lines
154-179): match on the returned tagged value, build and serialize the
payload, sign it. `.expect(...)` failures become `CallResult.trap`. -/
def run_js_finish (env : Env) (st : JsProver) (js_code_hash : Hash)
    (output : JsValue) : CallResult ProvenOutput :=
  match output with
  | .string s =>
    let k := key env st
    match env.get_driver "JsRuntime" with
    | none => .trap "Failed to get Js driver"
    | some driver =>
      match env.own_code_hash with
      | none => .trap "Failed to get contract code hash"
      | some contract_code_hash =>
        let payload : ProvenPayload :=
          { js_code_hash := js_code_hash
            js_engine_code_hash := driver
            contract_code_hash := contract_code_hash
            contract_address := env.account_id
            block_number := env.block_number
            output := s }
        let payload_str := serializePayload payload
        let signature := env.sign k payload_str
        .ok { payload := payload_str, signature := signature, pubkey := pubkey env st }
  | v => .err (.JsError ("Invalid output: " ++ jsValueDebug v))

/-- `pub fn run_js` (`src/lib.rs` lines 132-180): hash the code, check the
whitelist, append the secret as last argument, run the pop-stub fragment
followed by the caller's code, then `run_js_finish`. -/
def run_js (env : Env) (st : JsProver) (js_code : String)
    (args : List String) : CallResult ProvenOutput :=
  let js_code_hash : Hash := env.blake2x256 js_code
  match ensure_code_allowed st js_code_hash with
  | .error e => .err e
  | .ok _ =>
    let args := args ++ [secret_data st]
    let stub := "secretData = scriptArgs.pop();"
    let codes := [JsCode.source stub, JsCode.source js_code]
    run_js_finish env st js_code_hash (env.js_eval codes args)

/-- `pub fn transfer_ownership` (`src/lib.rs` lines 187-191); returns the
call result together with the post-call storage. -/
def transfer_ownership (env : Env) (st : JsProver) (new_owner : AccountId) :
    Except Error Unit × JsProver :=
  match ensure_owner env st with
  | .error e => (.error e, st)
  | .ok _ => (.ok (), { st with owner := new_owner })

/-- `pub fn update_config` (`src/lib.rs` lines 195-199). -/
def update_config (env : Env) (st : JsProver) (config : Config) :
    Except Error Unit × JsProver :=
  match ensure_owner env st with
  | .error e => (.error e, st)
  | .ok _ => (.ok (), { st with config := config })

/-- `pub fn update_secret` (`src/lib.rs` lines 203-212): replaces the
whitelist secret in place, `BadConfig` under any other policy. -/
def update_secret (env : Env) (st : JsProver) (secret : String) :
    Except Error Unit × JsProver :=
  match ensure_owner env st with
  | .error e => (.error e, st)
  | .ok _ =>
    match st.config with
    | .whiteList _ allowed_code_hashes =>
      (.ok (), { st with config := .whiteList secret allowed_code_hashes })
    | _ => (.error .BadConfig, st)

/-- `pub fn allow_code_hash` (`src/lib.rs` lines 216-225): pushes the hash
onto the whitelist, `BadConfig` under any other policy. -/
def allow_code_hash (env : Env) (st : JsProver) (code_hash : Hash) :
    Except Error Unit × JsProver :=
  match ensure_owner env st with
  | .error e => (.error e, st)
  | .ok _ =>
    match st.config with
    | .whiteList secret allowed_code_hashes =>
      (.ok (), { st with config := .whiteList secret (allowed_code_hashes ++ [code_hash]) })
    | _ => (.error .BadConfig, st)

/-! ### Helper lemmas -/

/-- Under the `Public` policy `ensure_code_allowed` always succeeds. -/
theorem ensure_code_allowed_public (st : JsProver) (h : Hash)
    (hcfg : st.config = .public) : ensure_code_allowed st h = .ok () := by
  simp [ensure_code_allowed, hcfg]

/-- Under the `WhiteList` policy `ensure_code_allowed` succeeds exactly on
listed hashes. -/
theorem ensure_code_allowed_whitelist (st : JsProver) (secret : String)
    (allowed : List Hash) (hcfg : st.config = .whiteList secret allowed) (h : Hash) :
    ensure_code_allowed st h =
      if h ∈ allowed then .ok () else .error .Unauthorized := by
  simp only [ensure_code_allowed, hcfg, List.contains, List.elem_iff]
  by_cases hm : h ∈ allowed <;> simp [hm]

/-- The only error `ensure_code_allowed` ever returns is `Unauthorized`. -/
theorem ensure_code_allowed_error_inv (st : JsProver) (h : Hash) (e : Error)
    (he : ensure_code_allowed st h = .error e) : e = .Unauthorized := by
  obtain ⟨own, cfg⟩ := st
  cases cfg with
  | public => simp [ensure_code_allowed] at he
  | whiteList s l =>
    simp only [ensure_code_allowed] at he
    split at he
    · cases he; rfl
    · cases he

/-- When the whitelist check fails, `run_js` propagates its error. -/
theorem run_js_err (env : Env) (st : JsProver) (js_code : String)
    (args : List String) (e : Error)
    (herr : ensure_code_allowed st (env.blake2x256 js_code) = .error e) :
    run_js env st js_code args = .err e := by
  simp only [run_js]
  rw [herr]

/-- When the whitelist check succeeds, `run_js` submits the pop-stub
fragment and the caller's code with the secret appended, then finishes. -/
theorem run_js_eq_finish (env : Env) (st : JsProver) (js_code : String)
    (args : List String)
    (hok : ensure_code_allowed st (env.blake2x256 js_code) = .ok ()) :
    run_js env st js_code args =
      run_js_finish env st (env.blake2x256 js_code)
        (env.js_eval [JsCode.source "secretData = scriptArgs.pop();", JsCode.source js_code]
          (args ++ [secret_data st])) := by
  simp only [run_js]
  rw [hok]

/-- The post-interpreter phase never produces the `Unauthorized` error. -/
theorem run_js_finish_ne_err_unauthorized (env : Env) (st : JsProver)
    (h : Hash) (v : JsValue) :
    run_js_finish env st h v ≠ .err .Unauthorized := by
  cases v <;> simp only [run_js_finish] <;> try simp
  cases env.get_driver "JsRuntime" <;> cases env.own_code_hash <;> simp

/-- Structure of a successful `run_js_finish` result: the returned pubkey
is `pubkey`, and the signature is over the carried payload string with the
derived key. -/
theorem run_js_finish_ok_inv (env : Env) (st : JsProver) (h : Hash)
    (v : JsValue) (out : ProvenOutput)
    (hv : run_js_finish env st h v = .ok out) :
    out.pubkey = pubkey env st
      ∧ out.signature = env.sign (key env st) out.payload := by
  cases v with
  | string s =>
    simp only [run_js_finish] at hv
    cases hd : env.get_driver "JsRuntime" <;> rw [hd] at hv
    · cases hv
    · cases hc : env.own_code_hash <;> rw [hc] at hv
      · cases hv
      · injection hv with h1
        subst h1
        simp
  | undefined => simp only [run_js_finish] at hv; exact CallResult.noConfusion hv
  | null => simp only [run_js_finish] at hv; exact CallResult.noConfusion hv
  | boolean b => simp only [run_js_finish] at hv; exact CallResult.noConfusion hv
  | bytes b => simp only [run_js_finish] at hv; exact CallResult.noConfusion hv
  | exception m => simp only [run_js_finish] at hv; exact CallResult.noConfusion hv
  | other r => simp only [run_js_finish] at hv; exact CallResult.noConfusion hv

/-- Exhaustive case split of `run_js_finish` results. -/
theorem run_js_finish_cases (env : Env) (st : JsProver) (h : Hash) (v : JsValue) :
    (∃ out, run_js_finish env st h v = .ok out)
    ∨ (∃ s, run_js_finish env st h v = .err (.JsError s))
    ∨ run_js_finish env st h v = .trap "Failed to get Js driver"
    ∨ run_js_finish env st h v = .trap "Failed to get contract code hash" := by
  cases v <;> simp only [run_js_finish] <;> try (right; left; exact ⟨_, rfl⟩)
  case string s =>
    cases env.get_driver "JsRuntime" <;> simp
    cases env.own_code_hash <;> simp

/-- The lowercase hexadecimal alphabet. -/
def hexAlphabet : List Char := "0123456789abcdef".data

/-- `hexDigit` stays inside the lowercase hexadecimal alphabet. -/
theorem hexDigit_mem : ∀ n < 16, hexDigit n ∈ hexAlphabet := by decide

/-- Characters of the concatenation of a list of strings. -/
theorem join_data (l : List String) :
    (String.join l).data = (l.map String.data).flatten := by
  have aux : ∀ (l : List String) (init : String),
      (l.foldl (fun r s => r ++ s) init).data
        = init.data ++ (l.map String.data).flatten := by
    intro l
    induction l with
    | nil => intro init; simp
    | cons s rest ih =>
      intro init
      simp [ih, String.data_append, List.append_assoc]
  simpa [String.join] using aux l ""

/-- Characters of one `hexByte`. -/
theorem hexByte_data (b : Nat) :
    (hexByte b).data = [hexDigit (b % 256 / 16), hexDigit (b % 16)] := rfl

/-- Unfolded character list of `hexEncode`. -/
theorem hexEncode_data (bs : List Nat) :
    (hexEncode bs).data
      = (bs.map fun b => [hexDigit (b % 256 / 16), hexDigit (b % 16)]).flatten := by
  rw [hexEncode, join_data, List.map_map]
  congr 1

/-- Every character `hexEncode` produces is a lowercase hexadecimal
digit. -/
theorem hexEncode_chars (bs : List Nat) :
    ∀ c ∈ (hexEncode bs).data, c ∈ hexAlphabet := by
  intro c hc
  rw [hexEncode_data] at hc
  rw [List.mem_flatten] at hc
  obtain ⟨cs, hcs, hcc⟩ := hc
  rw [List.mem_map] at hcs
  obtain ⟨b, _, rfl⟩ := hcs
  rcases hcc with _ | ⟨_, hcc⟩
  · exact hexDigit_mem _ (by omega)
  · rcases hcc with _ | ⟨_, hcc⟩
    · exact hexDigit_mem _ (by omega)
    · cases hcc

/-- `hexEncode` produces two characters per byte. -/
theorem hexEncode_length (bs : List Nat) :
    (hexEncode bs).length = 2 * bs.length := by
  have aux : ∀ bs : List Nat,
      ((bs.map fun b => [hexDigit (b % 256 / 16), hexDigit (b % 16)]).flatten).length
        = 2 * bs.length := by
    intro bs
    induction bs with
    | nil => rfl
    | cons b rest ih => simp [ih]; omega
  simpa [String.length, hexEncode_data] using aux bs

/-- JSON escaping leaves the characters of hex renderings untouched. -/
theorem jsonEscapeChar_hex :
    ∀ c ∈ 'x' :: hexAlphabet, jsonEscapeChar c = String.singleton c := by decide

/-- Concatenating the singletons of a character list gives it back. -/
theorem join_map_singleton (l : List Char) : (l.map fun c => [c]).flatten = l := by
  induction l with
  | nil => rfl
  | cons c rest ih => simp [ih]

/-- A string all of whose characters escape to themselves is unchanged by
JSON escaping. -/
theorem jsonEscape_eq_self (s : String)
    (h : ∀ c ∈ s.data, jsonEscapeChar c = String.singleton c) :
    jsonEscape s = s := by
  apply String.ext
  rw [jsonEscape, join_data, List.map_map]
  have hmap : s.data.map (String.data ∘ jsonEscapeChar)
      = s.data.map (fun c => [c]) := by
    apply List.map_congr_left
    intro c hc
    simp [Function.comp, h c hc]
  rw [hmap, join_map_singleton]

/-- The JSON string literal of a `Hexed` rendering: an opening quote, the
fixed `0x` prefix, the lowercase hex digits, a closing quote — no escaping
happens. -/
theorem jsonString_hexed (bs : List Nat) :
    jsonString (hexed bs) = "\"0x" ++ hexEncode bs ++ "\"" := by
  have hplain : ∀ c ∈ (hexed bs).data, jsonEscapeChar c = String.singleton c := by
    intro c hc
    simp only [hexed, String.data_append] at hc
    rcases List.mem_append.1 hc with h0 | hhex
    · apply jsonEscapeChar_hex
      rcases h0 with _ | ⟨_, h0⟩
      · simp [hexAlphabet]
      · rcases h0 with _ | ⟨_, h0⟩
        · simp
        · cases h0
    · exact jsonEscapeChar_hex c (List.mem_cons_of_mem _ (hexEncode_chars bs c hhex))
  rw [jsonString, jsonEscape_eq_self _ hplain, hexed, ← String.append_assoc]
  have hq : ("\"" : String) ++ "0x" = "\"0x" := rfl
  rw [hq]

/-- A concrete host environment used to exercise the contract functions on
closed inputs. -/
def sampleEnv : Env where
  caller := [1]
  account_id := [2]
  block_number := 5
  own_code_hash := some [3]
  blake2x256 := fun s => [s.length % 256]
  js_eval := fun _ _ => .string "ok"
  derive_sr25519_key := fun salt => 0 :: salt
  get_public_key := fun k => 1 :: k
  sign := fun k m => k ++ [m.length % 256]
  get_driver := fun _ => some [4]

/-- `ensure_owner` either succeeds or fails with `Unauthorized`. -/
theorem ensure_owner_cases (env : Env) (st : JsProver) :
    ensure_owner env st = .ok () ∨ ensure_owner env st = .error .Unauthorized := by
  simp only [ensure_owner]
  split <;> simp

/-! ### Claim theorems -/

/-- C1: under the `WhiteList` policy a `run_js` call returns `Unauthorized`
exactly when the Blake2-256 hash of the submitted code is not a member of
`allowed_code_hashes`; on rejection the result is `Unauthorized` no matter
which interpreter the host runs, i.e. the external interpreter is never
consulted; under the `Public` policy the code-hash check always allows. -/
theorem run_js_whitelist_gate (env : Env) (st : JsProver) (js_code : String)
    (args : List String) :
    (∀ secret allowed, st.config = .whiteList secret allowed →
      ((run_js env st js_code args = .err .Unauthorized
          ↔ env.blake2x256 js_code ∉ allowed)
        ∧ (env.blake2x256 js_code ∉ allowed →
            ∀ f, run_js { env with js_eval := f } st js_code args
              = .err .Unauthorized)))
    ∧ (st.config = .public →
        ensure_code_allowed st (env.blake2x256 js_code) = .ok ()
          ∧ run_js env st js_code args ≠ .err .Unauthorized) := by
  constructor
  · intro secret allowed hcfg
    have hwl := ensure_code_allowed_whitelist st secret allowed hcfg
      (env.blake2x256 js_code)
    constructor
    · constructor
      · intro hrun
        by_contra hmem
        have hok : ensure_code_allowed st (env.blake2x256 js_code) = .ok () := by
          rw [hwl, if_pos hmem]
        rw [run_js_eq_finish env st js_code args hok] at hrun
        exact run_js_finish_ne_err_unauthorized env st _ _ hrun
      · intro hmem
        exact run_js_err env st js_code args _ (by rw [hwl, if_neg hmem])
    · intro hmem f
      refine run_js_err _ st js_code args _ ?_
      have heq : ({ env with js_eval := f } : Env).blake2x256 = env.blake2x256 := rfl
      rw [heq, hwl, if_neg hmem]
  · intro hcfg
    have hok := ensure_code_allowed_public st (env.blake2x256 js_code) hcfg
    refine ⟨hok, ?_⟩
    rw [run_js_eq_finish env st js_code args hok]
    exact run_js_finish_ne_err_unauthorized env st _ _

/-- C1 witness: code hashing to `[1]` is rejected when the whitelist only
holds `[9]`. -/
theorem run_js_whitelist_gate_witness :
    run_js sampleEnv ⟨[1], .whiteList "sec" [[9]]⟩ "x" [] = .err .Unauthorized :=
  ((run_js_whitelist_gate sampleEnv ⟨[1], .whiteList "sec" [[9]]⟩ "x" []).1
    "sec" [[9]] rfl).1.mpr (by decide)

/-- C2: `get_config` blanks the whitelist secret for a non-owner caller,
returns the stored configuration intact (secret included) for the owner,
and returns a `Public` configuration unchanged for every caller; being a
`&self` message it is a pure read of the stored state. -/
theorem get_config_redaction (env : Env) (st : JsProver) :
    (env.caller = st.owner → get_config env st = st.config)
    ∧ (∀ secret allowed, st.config = .whiteList secret allowed →
        env.caller ≠ st.owner → get_config env st = .whiteList "" allowed)
    ∧ (st.config = .public → get_config env st = .public) := by
  refine ⟨?_, ?_, ?_⟩
  · intro hown
    obtain ⟨own, cfg⟩ := st
    cases cfg <;> simp_all [get_config]
  · intro secret allowed hcfg hne
    simp [get_config, hcfg, hne]
  · intro hcfg
    simp [get_config, hcfg]

/-- C2 witness: a non-owner caller sees the secret blanked. -/
theorem get_config_redaction_witness :
    get_config { sampleEnv with caller := [7] } ⟨[1], .whiteList "sec" [[9]]⟩
      = .whiteList "" [[9]] :=
  (get_config_redaction { sampleEnv with caller := [7] }
    ⟨[1], .whiteList "sec" [[9]]⟩).2.1 "sec" [[9]] rfl (by decide)

/-- C3: each admin operation invoked by a caller other than the current
owner returns `Unauthorized` and leaves owner and configuration exactly
unchanged. -/
theorem admin_non_owner_rejected (env : Env) (st : JsProver)
    (new_owner : AccountId) (cfg : Config) (secret : String) (h : Hash)
    (hne : env.caller ≠ st.owner) :
    transfer_ownership env st new_owner = (.error .Unauthorized, st)
    ∧ update_config env st cfg = (.error .Unauthorized, st)
    ∧ update_secret env st secret = (.error .Unauthorized, st)
    ∧ allow_code_hash env st h = (.error .Unauthorized, st) := by
  have ho : ensure_owner env st = .error .Unauthorized := by
    simp [ensure_owner, hne]
  refine ⟨?_, ?_, ?_, ?_⟩ <;>
    simp [transfer_ownership, update_config, update_secret, allow_code_hash, ho]

/-- C3 witness: a concrete non-owner call to `transfer_ownership` is
rejected with the state untouched. -/
theorem admin_non_owner_rejected_witness :
    transfer_ownership { sampleEnv with caller := [7] } ⟨[1], .public⟩ [7]
      = (.error .Unauthorized, ⟨[1], .public⟩) :=
  (admin_non_owner_rejected { sampleEnv with caller := [7] } ⟨[1], .public⟩
    [7] .public "s" [9] (by decide)).1

/-- C4: called by the owner, `update_secret` and `allow_code_hash` return
`BadConfig` and change nothing when the active policy is `Public`; under
`WhiteList` they replace the shared secret resp. append the hash to the
allow-list and succeed. -/
theorem owner_secret_ops (env : Env) (st : JsProver) (secret : String)
    (h : Hash) (hown : env.caller = st.owner) :
    (st.config = .public →
      update_secret env st secret = (.error .BadConfig, st)
        ∧ allow_code_hash env st h = (.error .BadConfig, st))
    ∧ (∀ s0 allowed, st.config = .whiteList s0 allowed →
        update_secret env st secret
            = (.ok (), { st with config := .whiteList secret allowed })
          ∧ allow_code_hash env st h
            = (.ok (), { st with config := .whiteList s0 (allowed ++ [h]) })) := by
  have ho : ensure_owner env st = .ok () := by simp [ensure_owner, hown]
  constructor
  · intro hcfg
    constructor <;> simp [update_secret, allow_code_hash, ho, hcfg]
  · intro s0 allowed hcfg
    constructor <;> simp [update_secret, allow_code_hash, ho, hcfg]

/-- C4 witness: the owner calling `update_secret` under `Public` gets
`BadConfig` and the state is unchanged. -/
theorem owner_secret_ops_witness :
    update_secret sampleEnv ⟨[1], .public⟩ "new"
      = (.error .BadConfig, ⟨[1], .public⟩) :=
  ((owner_secret_ops sampleEnv ⟨[1], .public⟩ "new" [9] rfl).1 rfl).1

/-- C5: the signed payload is a JSON text whose fields appear in the fixed
order output, js_code_hash, js_engine_code_hash, contract_code_hash,
contract_address, block_number; the four hash/address fields render as the
string `0x` followed by the lowercase hexadecimal digits of their raw
bytes (two per byte); block_number is a plain integer; and equal payloads
serialize to equal strings. -/
theorem payload_serialization_format (p : ProvenPayload) :
    serializePayload p =
      "\x7b" ++ "\"output\"" ++ ":" ++ ("\"" ++ jsonEscape p.output ++ "\"")
      ++ "," ++ "\"js_code_hash\"" ++ ":"
        ++ ("\"0x" ++ hexEncode p.js_code_hash ++ "\"")
      ++ "," ++ "\"js_engine_code_hash\"" ++ ":"
        ++ ("\"0x" ++ hexEncode p.js_engine_code_hash ++ "\"")
      ++ "," ++ "\"contract_code_hash\"" ++ ":"
        ++ ("\"0x" ++ hexEncode p.contract_code_hash ++ "\"")
      ++ "," ++ "\"contract_address\"" ++ ":"
        ++ ("\"0x" ++ hexEncode p.contract_address ++ "\"")
      ++ "," ++ "\"block_number\"" ++ ":" ++ toString p.block_number
      ++ "\x7d"
    ∧ (∀ bs : List Nat, (∀ c ∈ (hexEncode bs).data, c ∈ hexAlphabet)
        ∧ (hexEncode bs).length = 2 * bs.length)
    ∧ (∀ q, p = q → serializePayload p = serializePayload q) := by
  refine ⟨?_, fun bs => ⟨hexEncode_chars bs, hexEncode_length bs⟩,
    fun q hq => by rw [hq]⟩
  simp only [serializePayload, jsonString_hexed]
  rfl

/-- C5 witness: a concrete payload serializes to the expected JSON bytes,
and serialization at that payload is deterministic. -/
theorem payload_serialization_format_witness :
    serializePayload ⟨"ok", [1], [4], [3], [2], 5⟩
        = "\x7b\"output\":\"ok\",\"js_code_hash\":\"0x01\",\"js_engine_code_hash\":\"0x04\",\"contract_code_hash\":\"0x03\",\"contract_address\":\"0x02\",\"block_number\":5\x7d"
      ∧ serializePayload ⟨"ok", [1], [4], [3], [2], 5⟩
        = serializePayload ⟨"ok", [1], [4], [3], [2], 5⟩ :=
  ⟨((payload_serialization_format ⟨"ok", [1], [4], [3], [2], 5⟩).1).trans (by rfl),
    (payload_serialization_format ⟨"ok", [1], [4], [3], [2], 5⟩).2.2 _ rfl⟩

/-- C6: a `run_js` call that passes the code-hash check submits exactly two
source fragments — first the stub popping the last argument into the
`secretData` global, then the caller's code unmodified — together with the
caller's arguments plus the resolved secret appended as final element; the
resolved secret is the whitelist's shared secret (independent of the code
hash) or the empty string under `Public`. -/
theorem run_js_interpreter_submission (env : Env) (st : JsProver)
    (js_code : String) (args : List String)
    (hok : ensure_code_allowed st (env.blake2x256 js_code) = .ok ()) :
    run_js env st js_code args =
      run_js_finish env st (env.blake2x256 js_code)
        (env.js_eval
          [JsCode.source "secretData = scriptArgs.pop();", JsCode.source js_code]
          (args ++ [secret_data st]))
    ∧ (∀ secret allowed, st.config = .whiteList secret allowed →
        secret_data st = secret)
    ∧ (st.config = .public → secret_data st = "") := by
  refine ⟨run_js_eq_finish env st js_code args hok, ?_, ?_⟩
  · intro secret allowed hcfg
    simp [secret_data, hcfg]
  · intro hcfg
    simp [secret_data, hcfg]

/-- C6 witness: a whitelisted call reduces to the interpreter invocation on
the stub fragment, the unmodified code, and the arguments ending in the
shared secret. -/
theorem run_js_interpreter_submission_witness :
    run_js sampleEnv ⟨[1], .whiteList "sec" [[1]]⟩ "x" [] =
      run_js_finish sampleEnv ⟨[1], .whiteList "sec" [[1]]⟩ [1]
        (sampleEnv.js_eval
          [JsCode.source "secretData = scriptArgs.pop();", JsCode.source "x"]
          ["sec"]) :=
  (run_js_interpreter_submission sampleEnv ⟨[1], .whiteList "sec" [[1]]⟩
    "x" [] (by rfl)).1

/-- C7: when the interpreter returns a tagged value that is not a string,
`run_js` fails with a `JsError` whose detail describes the returned value,
and no `ProvenOutput` is produced. -/
theorem run_js_non_string_output (env : Env) (st : JsProver)
    (js_code : String) (args : List String)
    (hok : ensure_code_allowed st (env.blake2x256 js_code) = .ok ())
    (hns : ∀ s, env.js_eval
        [JsCode.source "secretData = scriptArgs.pop();", JsCode.source js_code]
        (args ++ [secret_data st]) ≠ .string s) :
    run_js env st js_code args
      = .err (.JsError ("Invalid output: "
          ++ jsValueDebug (env.js_eval
            [JsCode.source "secretData = scriptArgs.pop();", JsCode.source js_code]
            (args ++ [secret_data st]))))
    ∧ ∀ out, run_js env st js_code args ≠ .ok out := by
  have hmain : run_js env st js_code args
      = .err (.JsError ("Invalid output: "
          ++ jsValueDebug (env.js_eval
            [JsCode.source "secretData = scriptArgs.pop();", JsCode.source js_code]
            (args ++ [secret_data st])))) := by
    rw [run_js_eq_finish env st js_code args hok]
    generalize hv : env.js_eval
      [JsCode.source "secretData = scriptArgs.pop();", JsCode.source js_code]
      (args ++ [secret_data st]) = v at hns
    cases v with
    | string s => exact absurd rfl (hns s)
    | undefined => rfl
    | null => rfl
    | boolean b => rfl
    | bytes b => rfl
    | exception m => rfl
    | other r => rfl
  refine ⟨hmain, fun out hout => ?_⟩
  rw [hmain] at hout
  exact CallResult.noConfusion hout

/-- A host environment whose interpreter returns the `Undefined` value. -/
def undefEnv : Env := { sampleEnv with js_eval := fun _ _ => .undefined }

/-- C7 witness: an `Undefined` interpreter result yields the descriptive
`JsError`. -/
theorem run_js_non_string_output_witness :
    run_js undefEnv ⟨[1], .public⟩ "x" []
      = .err (.JsError "Invalid output: Undefined") :=
  ((run_js_non_string_output undefEnv ⟨[1], .public⟩ "x" [] rfl
    (fun s h => JsValue.noConfusion h)).1).trans (by rfl)

/-- C8: the signing key is recomputed on demand from the fixed `b"signer"`
domain label, reads nothing from the stored state (derivations in any two
states of the instance agree), and the pubkey of every successful `run_js`
output is the public half of the key used for that output's signature —
the same value `pubkey()` returns. -/
theorem signing_key_stateless (env : Env) (st st2 : JsProver) :
    key env st = env.derive_sr25519_key [115, 105, 103, 110, 101, 114]
    ∧ key env st = key env st2
    ∧ (∀ js_code args out, run_js env st js_code args = .ok out →
        out.pubkey = pubkey env st
          ∧ out.signature = env.sign (key env st) out.payload
          ∧ pubkey env st = env.get_public_key (key env st)) := by
  refine ⟨rfl, rfl, ?_⟩
  intro js_code args out hrun
  cases he : ensure_code_allowed st (env.blake2x256 js_code) with
  | error e =>
    rw [run_js_err env st js_code args e he] at hrun
    exact CallResult.noConfusion hrun
  | ok u =>
    cases u
    rw [run_js_eq_finish env st js_code args he] at hrun
    obtain ⟨h1, h2⟩ := run_js_finish_ok_inv env st _ _ out hrun
    exact ⟨h1, h2, rfl⟩

set_option maxRecDepth 8192 in
/-- C8 witness: the pubkey carried by a concrete successful run equals
`pubkey()` of the instance. -/
theorem signing_key_stateless_witness :
    ({ payload := "\x7b\"output\":\"ok\",\"js_code_hash\":\"0x01\",\"js_engine_code_hash\":\"0x04\",\"contract_code_hash\":\"0x03\",\"contract_address\":\"0x02\",\"block_number\":5\x7d",
        signature := [0, 115, 105, 103, 110, 101, 114, 137],
        pubkey := [1, 0, 115, 105, 103, 110, 101, 114] } : ProvenOutput).pubkey
      = pubkey sampleEnv ⟨[1], Config.public⟩ :=
  ((signing_key_stateless sampleEnv ⟨[1], .public⟩ ⟨[1], .public⟩).2.2 "x" []
    { payload := "\x7b\"output\":\"ok\",\"js_code_hash\":\"0x01\",\"js_engine_code_hash\":\"0x04\",\"contract_code_hash\":\"0x03\",\"contract_address\":\"0x02\",\"block_number\":5\x7d",
      signature := [0, 115, 105, 103, 110, 101, 114, 137],
      pubkey := [1, 0, 115, 105, 103, 110, 101, 114] } (by rfl)).1

/-- A host environment with no registered `JsRuntime` driver. -/
def noDriverEnv : Env := { sampleEnv with get_driver := fun _ => none }

/-- C9 counterexample: with no engine driver registered, `run_js` aborts
through the `expect` panic — a trap, not one of the typed errors — so a
missing engine identity is not surfaced as a reported typed error. -/
theorem run_js_driver_failure_traps :
    run_js noDriverEnv ⟨[1], .public⟩ "x" [] = .trap "Failed to get Js driver" := by
  rfl

/-- C9 (amended): policy, config and interpreter failures are surfaced as
the typed errors `Unauthorized`, `BadConfig` and `JsError`, but a failure
to obtain the engine identity or the contract's own code hash aborts the
call through a panic (`expect`) instead of returning a typed error; the
admin operations fail only with typed errors. -/
theorem run_js_failure_surface (env : Env) (st : JsProver) (js_code : String)
    (args : List String) (new_owner : AccountId) (cfg : Config)
    (secret : String) (h : Hash) :
    ((∃ out, run_js env st js_code args = .ok out)
      ∨ run_js env st js_code args = .err .Unauthorized
      ∨ (∃ s, run_js env st js_code args = .err (.JsError s))
      ∨ run_js env st js_code args = .trap "Failed to get Js driver"
      ∨ run_js env st js_code args = .trap "Failed to get contract code hash")
    ∧ ((transfer_ownership env st new_owner).1 = .ok ()
        ∨ (transfer_ownership env st new_owner).1 = .error .Unauthorized)
    ∧ ((update_config env st cfg).1 = .ok ()
        ∨ (update_config env st cfg).1 = .error .Unauthorized)
    ∧ ((update_secret env st secret).1 = .ok ()
        ∨ (update_secret env st secret).1 = .error .Unauthorized
        ∨ (update_secret env st secret).1 = .error .BadConfig)
    ∧ ((allow_code_hash env st h).1 = .ok ()
        ∨ (allow_code_hash env st h).1 = .error .Unauthorized
        ∨ (allow_code_hash env st h).1 = .error .BadConfig) := by
  refine ⟨?_, ?_, ?_, ?_, ?_⟩
  · cases he : ensure_code_allowed st (env.blake2x256 js_code) with
    | error e =>
      have := ensure_code_allowed_error_inv st _ e he
      subst this
      right; left
      exact run_js_err env st js_code args _ he
    | ok u =>
      cases u
      rw [run_js_eq_finish env st js_code args he]
      rcases run_js_finish_cases env st (env.blake2x256 js_code)
          (env.js_eval
            [JsCode.source "secretData = scriptArgs.pop();", JsCode.source js_code]
            (args ++ [secret_data st])) with
        ⟨out, ho⟩ | ⟨s, hs⟩ | ht | ht
      · exact Or.inl ⟨out, ho⟩
      · exact Or.inr (Or.inr (Or.inl ⟨s, hs⟩))
      · exact Or.inr (Or.inr (Or.inr (Or.inl ht)))
      · exact Or.inr (Or.inr (Or.inr (Or.inr ht)))
  · rcases ensure_owner_cases env st with ho | ho <;>
      simp [transfer_ownership, ho]
  · rcases ensure_owner_cases env st with ho | ho <;>
      simp [update_config, ho]
  · rcases ensure_owner_cases env st with ho | ho <;>
      obtain ⟨own, cfg2⟩ := st <;> cases cfg2 <;>
      simp_all [update_secret, ensure_owner]
  · rcases ensure_owner_cases env st with ho | ho <;>
      obtain ⟨own, cfg2⟩ := st <;> cases cfg2 <;>
      simp_all [allow_code_hash, ensure_owner]

/-- C10: the constructor stores the instantiating caller as owner and the
supplied configuration verbatim — in particular a `WhiteList` with an
empty allow-list is accepted, and in that state every `run_js` call fails
with `Unauthorized` (until a hash is allowed). -/
theorem constructor_stores_verbatim (env : Env) (cfg : Config) :
    new env cfg = { owner := env.caller, config := cfg }
    ∧ (∀ (env2 : Env) (owner : AccountId) (secret : String)
        (js_code : String) (args : List String),
        run_js env2 ⟨owner, .whiteList secret []⟩ js_code args
          = .err .Unauthorized) := by
  refine ⟨rfl, ?_⟩
  intro env2 owner secret js_code args
  exact run_js_err env2 ⟨owner, .whiteList secret []⟩ js_code args _ rfl

end Prover
